import Mathlib

/-!
Shallow embedding of the syntX_bot signal engine
(src/advanced_trading_bot.py, src/signal_generator.py, src/technical_analyzer.py)
over exact rationals, with theorems settling the specification claims.

Pandas DataFrames become Lists of `Row` records; NaN-valued indicator columns
become `Option ℚ` (a `none` models a NaN cell, whose float comparisons are all
false in Python); IEEE float division edge cases relevant to RSI are modelled
by the `PFloat` type.  Dict results become structures; logging is ignored.
-/

namespace SyntX

/-- Signal direction; the source uses the strings BULLISH/BEARISH/NEUTRAL
(upper case in advanced_trading_bot.py, lower case in technical_analyzer.py —
the spelling difference carries no meaning). -/
inductive Direction
| BULLISH
| BEARISH
| NEUTRAL
deriving DecidableEq

/-- One OHLCV row of a price DataFrame, together with the indicator columns
added by TechnicalAnalyzer.calculate_indicators.  Indicator cells that can be
NaN are `Option ℚ` (`none` = NaN).  Timestamp indices are not modelled; the
pattern records below carry positional indices instead. -/
structure Row where
  «open» : ℚ
  high : ℚ
  low : ℚ
  close : ℚ
  volume : ℚ := 0
  volume_sma : Option ℚ := none
  rsi : Option ℚ := none
  bb_position : Option ℚ := none
  ema_fast : Option ℚ := none
  ema_slow : Option ℚ := none
  macd : Option ℚ := none
  macd_signal : Option ℚ := none
  macd_histogram : Option ℚ := none
deriving DecidableEq

/-- One strategy vote, as the dicts returned by the analyze_with_* methods of
AdvancedTradingBot: a strategy name, a direction, a strength and the entry
price (the further metadata keys are unused by the aggregator). -/
structure StrategySignal where
  strategy : String
  direction : Direction
  strength : ℚ
  entry : ℚ
deriving DecidableEq

/-- AdvancedTradingBot.strategy_weights, looked up with dict.get(name, 0.1)
on the lower-cased strategy name (advanced_trading_bot.py lines 51-58, 552). -/
def strategy_weights (name : String) : ℚ :=
  if name = "ai_analysis" then 35/100
  else if name = "smc" then 20/100
  else if name = "trend" then 15/100
  else if name = "momentum" then 15/100
  else if name = "mean_reversion" then 10/100
  else if name = "breakout" then 5/100
  else 1/10

/-- Python str.lower() restricted to ASCII names, as a character-wise map
(the strategy names in this program are pure ASCII). -/
def pyLower (s : String) : String :=
  ⟨s.data.map Char.toLower⟩

/-- The weight attached to one signal: `strategy_weights.get(strategy['strategy'].lower(), 0.1)`. -/
def signalWeight (s : StrategySignal) : ℚ :=
  strategy_weights (pyLower s.strategy)

/-- The bullish_score accumulator of calculate_weighted_signal:
`strength * weight` summed over signals whose direction is BULLISH. -/
def bullishScore : List StrategySignal → ℚ
  | [] => 0
  | s :: rest =>
      (if s.direction = Direction.BULLISH then s.strength * signalWeight s else 0)
        + bullishScore rest

/-- The bearish_score accumulator of calculate_weighted_signal. -/
def bearishScore : List StrategySignal → ℚ
  | [] => 0
  | s :: rest =>
      (if s.direction = Direction.BEARISH then s.strength * signalWeight s else 0)
        + bearishScore rest

/-- The total_weight accumulator of calculate_weighted_signal: every signal in
the list contributes its weight, whatever its direction. -/
def totalWeight : List StrategySignal → ℚ
  | [] => 0
  | s :: rest => signalWeight s + totalWeight rest

/-- True-range of a row given the previous row's close:
`max(high-low, |high-prev_close|, |low-prev_close|)` (calculate_atr). -/
def trAux (prev : Row) : List Row → List ℚ
  | [] => []
  | b :: rest =>
      max (b.high - b.low) (max |b.high - prev.close| |b.low - prev.close|) :: trAux b rest

/-- The true-range series: for the first row the shifted close is NaN, and
`pd.concat(...).max(axis=1)` skips NaN, leaving `high - low`. -/
def trueRanges : List Row → List ℚ
  | [] => []
  | b :: rest => (b.high - b.low) :: trAux b rest

/-- AdvancedTradingBot.calculate_atr (lines 601-618): default 50.0 for fewer
than 14 rows, otherwise the rolling-14 mean of the true range at the last row
(the NaN fallback to 50.0 is unreachable once 14 rows exist). -/
def calculate_atr (df : List Row) : ℚ :=
  if df.length < 14 then 50
  else
    let tr := trueRanges df
    let lastAtr : Option ℚ :=
      if tr.length < 14 then none else some (((tr.drop (tr.length - 14)).sum) / 14)
    lastAtr.getD 50

/-- The final-direction if-chain of calculate_weighted_signal (lines 563-572). -/
def finalDirection (ss : List StrategySignal) : Direction :=
  if bullishScore ss > bearishScore ss then Direction.BULLISH
  else if bearishScore ss > bullishScore ss then Direction.BEARISH
  else Direction.NEUTRAL

/-- The final-strength value of the same if-chain, before the ×10 display
scaling: `min(winning_score / total_weight, 1.0)` on a win, 0.0 on a tie. -/
def finalStrengthRaw (ss : List StrategySignal) : ℚ :=
  if bullishScore ss > bearishScore ss then min (bullishScore ss / totalWeight ss) 1
  else if bearishScore ss > bullishScore ss then min (bearishScore ss / totalWeight ss) 1
  else 0

/-- The risk keys of the aggregated dict (entry_price, stop_loss, take_profit,
risk_reward). -/
structure RiskFields where
  entry_price : ℚ
  stop_loss : ℚ
  take_profit : ℚ
  risk_reward : ℚ
deriving DecidableEq

/-- Result of calculate_weighted_signal.  On an empty strategy list the source
hits `strategies[0]` (IndexError) and its except-handler returns a dict holding
only direction NEUTRAL and strength 0.0; `risk := none` models that missing
block of keys. -/
structure WeightedSignal where
  direction : Direction
  strength : ℚ
  risk : Option RiskFields
deriving DecidableEq

/-- AdvancedTradingBot.calculate_weighted_signal (lines 543-599).
current_price is `strategies[0]['entry']`; the ATR is computed from
`strategies[0].get('price_data', pd.DataFrame())`, and since no analyze_with_*
dict carries a 'price_data' key this is always the empty frame, so
`calculate_atr []` (= the 50.0 default).  Returned strength is the raw
strength scaled to the 0-10 display range. -/
def calculate_weighted_signal (strategies : List StrategySignal) : WeightedSignal :=
  match strategies with
  | [] => { direction := Direction.NEUTRAL, strength := 0, risk := none }
  | s0 :: _ =>
      let dir := finalDirection strategies
      let atr := calculate_atr []
      let stop_loss :=
        if dir = Direction.BULLISH then s0.entry - atr * (3/2)
        else if dir = Direction.BEARISH then s0.entry + atr * (3/2)
        else s0.entry
      let take_profit :=
        if dir = Direction.BULLISH then s0.entry + atr * 2
        else if dir = Direction.BEARISH then s0.entry - atr * 2
        else s0.entry
      let rr := if stop_loss ≠ s0.entry then |(take_profit - s0.entry) / (stop_loss - s0.entry)| else 0
      { direction := dir
        strength := finalStrengthRaw strategies * 10
        risk := some { entry_price := s0.entry, stop_loss := stop_loss,
                       take_profit := take_profit, risk_reward := rr } }

/-- Python round-half-to-even of a rational to an integer (the behaviour of
the builtin round(); the float binary-representation quirks of CPython are
abstracted away by working over exact rationals). -/
def pyRoundHalfEven (q : ℚ) : ℤ :=
  let f := ⌊q⌋
  let r := q - (f : ℚ)
  if r < 1/2 then f
  else if (1:ℚ)/2 < r then f + 1
  else if f % 2 = 0 then f else f + 1

/-- Python round(x, 2). -/
def round2 (q : ℚ) : ℚ := (pyRoundHalfEven (q * 100) : ℚ) / 100

/-- SignalGenerator.calculate_position_size (signal_generator.py 429-446):
risk_per_unit = |entry − stop|; zero risk short-circuits to the minimum
position 0.01, otherwise the size is clamped into [0.01, 0.1]. -/
def calculate_position_size (risk_amount entry_price stop_loss : ℚ) : ℚ :=
  let risk_per_unit := |entry_price - stop_loss|
  if risk_per_unit = 0 then 1/100
  else max (1/100) (min (risk_amount / risk_per_unit) (1/10))

/-- The risk_reward_ratio expression of SignalGenerator.analyze_symbol line
411: `round(abs(take_profit - entry_price) / abs(stop_loss - entry_price), 2)`
with NO zero guard.  `none` models the ZeroDivisionError Python raises when
stop_loss == entry_price, which the blanket except of analyze_symbol turns
into the whole cycle returning None. -/
def risk_reward_411 (take_profit entry_price stop_loss : ℚ) : Option ℚ :=
  if |stop_loss - entry_price| = 0 then none
  else some (round2 (|take_profit - entry_price| / |stop_loss - entry_price|))

/-- The entry/stop/target selection of SignalGenerator.analyze_symbol
(lines 365-376), keyed on the direction coming from get_signal_strength:
note the neutral branch reuses the bullish-style stop/target levels instead
of collapsing them to the current price. -/
def analyze_symbol_levels (direction : Direction) (current_price bid ask atr : ℚ) :
    ℚ × ℚ × ℚ :=
  if direction = Direction.BULLISH then
    (ask, current_price - atr * (3/2), current_price + atr * (5/2))
  else if direction = Direction.BEARISH then
    (bid, current_price + atr * (3/2), current_price - atr * (5/2))
  else
    (current_price, current_price - atr * (3/2), current_price + atr * (5/2))

/-- SignalGenerator.validate_and_log_price (lines 201-264): looks up the
expected range of the symbol (dict.get default (100, 10000)). -/
def expected_ranges (symbol : String) : ℚ × ℚ :=
  if symbol = "R_10" then (4000, 8000)
  else if symbol = "R_25" then (4000, 8000)
  else if symbol = "R_50" then (4000, 8000)
  else if symbol = "R_75" then (4000, 8000)
  else if symbol = "R_100" then (4000, 8000)
  else if symbol = "R_10_1S" then (4000, 8000)
  else if symbol = "R_25_1S" then (4000, 8000)
  else if symbol = "R_50_1S" then (4000, 8000)
  else if symbol = "R_75_1S" then (4000, 8000)
  else if symbol = "R_100_1S" then (4000, 8000)
  else if symbol = "BOOM300" then (1000, 3000)
  else if symbol = "BOOM500" then (1000, 3000)
  else if symbol = "BOOM1000" then (1000, 3000)
  else if symbol = "CRASH300" then (1000, 3000)
  else if symbol = "CRASH500" then (1000, 3000)
  else if symbol = "CRASH1000" then (1000, 3000)
  else if symbol = "JD10" then (4000, 8000)
  else if symbol = "JD25" then (4000, 8000)
  else if symbol = "JD50" then (4000, 8000)
  else if symbol = "JD75" then (4000, 8000)
  else if symbol = "JD100" then (4000, 8000)
  else if symbol = "RB100" then (1000, 3000)
  else if symbol = "RB200" then (1000, 3000)
  else if symbol = "R_STEPINDEX" then (1000, 3000)
  else (100, 10000)

/-- SignalGenerator.validate_and_log_price: both the in-range and the
out-of-range branch return `round(raw_price, 2)`; the range check only
changes what is logged. -/
def validate_and_log_price (raw_price : ℚ) (symbol : String) : ℚ :=
  let mm := expected_ranges symbol
  if mm.1 ≤ raw_price ∧ raw_price ≤ mm.2 then round2 raw_price
  else round2 raw_price

/-- SignalGenerator.normalize_deriv_price (lines 266-285): no scaling, just
validation plus 2-decimal rounding. -/
def normalize_deriv_price (raw_price : ℚ) (symbol : String) : ℚ :=
  validate_and_log_price raw_price symbol

/-- C1: for every list of strategy signals, if the weighted bullish score
equals the weighted bearish score (including the all-NEUTRAL and empty cases,
where both scores are 0), calculate_weighted_signal returns direction NEUTRAL
and strength 0. -/
theorem weighted_signal_tie_neutral (ss : List StrategySignal)
    (h : bullishScore ss = bearishScore ss) :
    (calculate_weighted_signal ss).direction = Direction.NEUTRAL ∧
    (calculate_weighted_signal ss).strength = 0 := by
  have hdir : finalDirection ss = Direction.NEUTRAL := by
    unfold finalDirection
    rw [h, if_neg (lt_irrefl _), if_neg (lt_irrefl _)]
  have hstr : finalStrengthRaw ss = 0 := by
    unfold finalStrengthRaw
    rw [h, if_neg (lt_irrefl _), if_neg (lt_irrefl _)]
  cases ss with
  | nil => exact ⟨rfl, rfl⟩
  | cons s0 rest =>
      refine ⟨?_, ?_⟩
      · simp only [calculate_weighted_signal, hdir]
      · simp only [calculate_weighted_signal, hstr, zero_mul]

/-- The spec's aggregation tie fixture: two equal-weight opposite-direction
equal-strength votes (trend BULLISH 0.5 vs momentum BEARISH 0.5, each given
weight 0.15 by the weight table). -/
def tieFixture : List StrategySignal :=
  [⟨"TREND", Direction.BULLISH, 1/2, 100⟩, ⟨"MOMENTUM", Direction.BEARISH, 1/2, 100⟩]

/-- Witness for C1: on the tie fixture the two scores coincide and the
aggregate is NEUTRAL with strength 0. -/
theorem weighted_signal_tie_neutral_witness :
    bullishScore tieFixture = bearishScore tieFixture ∧
    (calculate_weighted_signal tieFixture).direction = Direction.NEUTRAL ∧
    (calculate_weighted_signal tieFixture).strength = 0 := by
  have h : bullishScore tieFixture = bearishScore tieFixture := by
    simp [tieFixture, bullishScore, bearishScore, signalWeight, strategy_weights, pyLower]
  exact ⟨h, weighted_signal_tie_neutral _ h⟩

lemma bullishScore_eq_sum (ss : List StrategySignal) :
    bullishScore ss =
      ((ss.filter (fun s => s.direction = Direction.BULLISH)).map
        (fun s => s.strength * signalWeight s)).sum := by
  induction ss with
  | nil => rfl
  | cons s rest ih =>
      by_cases hd : s.direction = Direction.BULLISH <;>
        simp [bullishScore, List.filter_cons, hd, ih]

lemma bearishScore_eq_sum (ss : List StrategySignal) :
    bearishScore ss =
      ((ss.filter (fun s => s.direction = Direction.BEARISH)).map
        (fun s => s.strength * signalWeight s)).sum := by
  induction ss with
  | nil => rfl
  | cons s rest ih =>
      by_cases hd : s.direction = Direction.BEARISH <;>
        simp [bearishScore, List.filter_cons, hd, ih]

lemma totalWeight_eq_sum (ss : List StrategySignal) :
    totalWeight ss = (ss.map signalWeight).sum := by
  induction ss with
  | nil => rfl
  | cons s rest ih => simp [totalWeight, ih]

lemma weighted_direction_eq (s0 : StrategySignal) (rest : List StrategySignal) :
    (calculate_weighted_signal (s0 :: rest)).direction = finalDirection (s0 :: rest) := by
  simp [calculate_weighted_signal]

lemma weighted_strength_eq (s0 : StrategySignal) (rest : List StrategySignal) :
    (calculate_weighted_signal (s0 :: rest)).strength =
      finalStrengthRaw (s0 :: rest) * 10 := by
  simp [calculate_weighted_signal]

/-- C2: for every non-empty signal list, bullish_score is the weighted sum of
the BULLISH strengths (bearish symmetric), total_weight sums the weights of
every signal in the list (every evaluator that voted, NEUTRAL included), the
strictly larger score fixes the direction, and the returned strength is
`min(1, winning_score / total_weight)` scaled to the 0-10 display range. -/
theorem weighted_signal_scores_spec (ss : List StrategySignal) (hne : ss ≠ []) :
    bullishScore ss =
      ((ss.filter (fun s => s.direction = Direction.BULLISH)).map
        (fun s => s.strength * signalWeight s)).sum ∧
    bearishScore ss =
      ((ss.filter (fun s => s.direction = Direction.BEARISH)).map
        (fun s => s.strength * signalWeight s)).sum ∧
    totalWeight ss = (ss.map signalWeight).sum ∧
    (bullishScore ss > bearishScore ss →
      (calculate_weighted_signal ss).direction = Direction.BULLISH ∧
      (calculate_weighted_signal ss).strength =
        min 1 (bullishScore ss / totalWeight ss) * 10) ∧
    (bearishScore ss > bullishScore ss →
      (calculate_weighted_signal ss).direction = Direction.BEARISH ∧
      (calculate_weighted_signal ss).strength =
        min 1 (bearishScore ss / totalWeight ss) * 10) := by
  obtain ⟨s0, rest, rfl⟩ : ∃ s0 rest, ss = s0 :: rest := by
    cases ss with
    | nil => exact absurd rfl hne
    | cons a t => exact ⟨a, t, rfl⟩
  refine ⟨bullishScore_eq_sum _, bearishScore_eq_sum _, totalWeight_eq_sum _, ?_, ?_⟩
  · intro hgt
    refine ⟨?_, ?_⟩
    · rw [weighted_direction_eq]
      unfold finalDirection
      rw [if_pos hgt]
    · rw [weighted_strength_eq]
      unfold finalStrengthRaw
      rw [if_pos hgt, min_comm]
  · intro hgt
    have hnot : ¬ bullishScore (s0 :: rest) > bearishScore (s0 :: rest) := not_lt.mpr hgt.le
    refine ⟨?_, ?_⟩
    · rw [weighted_direction_eq]
      unfold finalDirection
      rw [if_neg hnot, if_pos hgt]
    · rw [weighted_strength_eq]
      unfold finalStrengthRaw
      rw [if_neg hnot, if_pos hgt, min_comm]

/-- A single maximal bullish trend vote: score 0.15, total weight 0.15. -/
def bullFixture : List StrategySignal := [⟨"TREND", Direction.BULLISH, 1, 100⟩]

/-- Witness for C2: on a single full-strength bullish trend vote the
aggregate is BULLISH with display strength 10. -/
theorem weighted_signal_scores_spec_witness :
    (calculate_weighted_signal bullFixture).direction = Direction.BULLISH ∧
    (calculate_weighted_signal bullFixture).strength = 10 := by
  have hb : bullishScore bullFixture > bearishScore bullFixture := by
    simp [bullFixture, bullishScore, bearishScore, signalWeight, strategy_weights, pyLower]
  have h := (weighted_signal_scores_spec bullFixture (by simp [bullFixture])).2.2.2.1 hb
  refine ⟨h.1, ?_⟩
  rw [h.2]
  have h1 : bullishScore bullFixture = 3/20 := by
    simp [bullFixture, bullishScore, signalWeight, strategy_weights, pyLower]
    norm_num
  have h2 : totalWeight bullFixture = 3/20 := by
    simp [bullFixture, totalWeight, signalWeight, strategy_weights, pyLower]
    norm_num
  rw [h1, h2]
  norm_num

/-- C3: at the degenerate risk point entry == stop_loss, position sizing does
return the 0.01 minimum, but the risk_reward_ratio expression at
signal_generator.py line 411 has no zero guard and raises ZeroDivisionError
(modelled by `none`), contradicting the specified `risk_reward = 0`.
Input: constant-price history gives ATR = 0, a neutral signal then has
entry = stop_loss = take_profit = current price (100 here). -/
theorem degenerate_risk_position_and_reward :
    calculate_position_size (1/20) 100 100 = 1/100 ∧
    risk_reward_411 100 100 100 = none ∧
    ∀ q : ℚ, risk_reward_411 100 100 100 ≠ some q := by
  refine ⟨?_, ?_, ?_⟩
  · norm_num [calculate_position_size]
  · norm_num [risk_reward_411]
  · intro q
    simp [risk_reward_411]

/-- Counterexample for C6: a neutral signal in signal_generator.analyze_symbol
with current price 100 and ATR 2 gets stop_loss 97 and take_profit 105 —
they do not collapse to the current price. -/
theorem analyze_symbol_neutral_not_collapsed :
    (analyze_symbol_levels Direction.NEUTRAL 100 99 101 2).2.1 = 97 ∧
    (analyze_symbol_levels Direction.NEUTRAL 100 99 101 2).2.2 = 105 ∧
    ¬ ((analyze_symbol_levels Direction.NEUTRAL 100 99 101 2).2.1 = 100 ∧
       (analyze_symbol_levels Direction.NEUTRAL 100 99 101 2).2.2 = 100) := by
  refine ⟨?_, ?_, ?_⟩
  · simp [analyze_symbol_levels]
    norm_num
  · simp [analyze_symbol_levels]
    norm_num
  · intro h
    have := h.1
    simp [analyze_symbol_levels] at this

/-- C6 (amended): in the weighted aggregator a NEUTRAL final direction does
collapse stop_loss and take_profit to the entry price (and risk_reward to 0);
the collapse claimed for every analysis cycle fails in analyze_symbol. -/
theorem weighted_signal_neutral_collapses (s0 : StrategySignal)
    (rest : List StrategySignal)
    (h : finalDirection (s0 :: rest) = Direction.NEUTRAL) :
    (calculate_weighted_signal (s0 :: rest)).risk =
      some { entry_price := s0.entry, stop_loss := s0.entry,
             take_profit := s0.entry, risk_reward := 0 } := by
  simp [calculate_weighted_signal, h]

/-- A single NEUTRAL SMC vote: both scores 0, aggregate NEUTRAL. -/
def neutralFixture : List StrategySignal := [⟨"SMC", Direction.NEUTRAL, 0, 50⟩]

/-- Witness for the amended C6: one NEUTRAL vote at entry 50 yields the
collapsed risk block (50, 50, 50, 0). -/
theorem weighted_signal_neutral_collapses_witness :
    (calculate_weighted_signal neutralFixture).risk =
      some { entry_price := 50, stop_loss := 50, take_profit := 50, risk_reward := 0 } := by
  have h : finalDirection neutralFixture = Direction.NEUTRAL := by
    simp [neutralFixture, finalDirection, bullishScore, bearishScore]
  exact weighted_signal_neutral_collapses _ _ h

/-- C10: price normalization is round-to-2-decimals and is independent of the
symbol: the expected-range lookup and its out-of-range branch never change
the returned value. -/
theorem normalize_deriv_price_symbol_independent (p : ℚ) (s1 s2 : String) :
    normalize_deriv_price p s1 = normalize_deriv_price p s2 ∧
    normalize_deriv_price p s1 = round2 p := by
  unfold normalize_deriv_price validate_and_log_price
  constructor <;> simp [ite_self]

/-- Last value of pandas Series.ewm(span).mean() with the default
adjust=True weighting: the (1-α)^i-weighted average of the samples, newest
first, with α = 2/(span+1).  pandas computes this for any non-empty series,
however short — there is no minimum-window cutoff. -/
def ewmLast (span : ℕ) (xs : List ℚ) : ℚ :=
  let a : ℚ := 2 / ((span : ℚ) + 1)
  let rev := xs.reverse
  let ws := (List.range rev.length).map (fun i => (1 - a) ^ i)
  (List.zipWith (fun w x => w * x) ws rev).sum / ws.sum

/-- AdvancedTradingBot.analyze_with_trend (advanced_trading_bot.py 157-206):
EMAs of spans 20/50/200 over the closes, then the strong/weak stacking
if-chain (Python chained comparisons).  On an empty series `iloc[-1]` raises
IndexError and the except-handler returns NEUTRAL with strength 0.0, the
`none` branch here.  Only the direction and strength keys are modelled. -/
def analyze_with_trend (closes : List ℚ) : Direction × ℚ :=
  match closes.getLast? with
  | none => (Direction.NEUTRAL, 0)
  | some c =>
      let e20 := ewmLast 20 closes
      let e50 := ewmLast 50 closes
      let e200 := ewmLast 200 closes
      if c > e20 ∧ e20 > e50 ∧ e50 > e200 then (Direction.BULLISH, 9/10)
      else if c < e20 ∧ e20 < e50 ∧ e50 < e200 then (Direction.BEARISH, 9/10)
      else if c > e20 ∧ e20 > e50 then (Direction.BULLISH, 6/10)
      else if c < e20 ∧ e20 < e50 then (Direction.BEARISH, 6/10)
      else (Direction.NEUTRAL, 0)

lemma ewmLast_twenty_two_bars : ewmLast 20 [2, 1] = 59/40 := by
  norm_num [ewmLast, List.range_succ]

lemma ewmLast_fifty_two_bars : ewmLast 50 [2, 1] = 149/100 := by
  norm_num [ewmLast, List.range_succ]

lemma ewmLast_twohundred_two_bars : ewmLast 200 [2, 1] = 599/400 := by
  norm_num [ewmLast, List.range_succ]

lemma ewmLast_twenty_up_bars : ewmLast 20 [1, 2] = 61/40 := by
  norm_num [ewmLast, List.range_succ]

lemma ewmLast_fifty_up_bars : ewmLast 50 [1, 2] = 151/100 := by
  norm_num [ewmLast, List.range_succ]

lemma ewmLast_twohundred_up_bars : ewmLast 200 [1, 2] = 601/400 := by
  norm_num [ewmLast, List.range_succ]

/-- Counterexample for C7: on the two-bar falling series [2, 1] the close sits
below every EMA, so neither the strict nor the partial bullish stacking holds,
yet the trend evaluator returns BEARISH 0.9, not NEUTRAL 0. -/
theorem analyze_with_trend_downtrend_not_neutral :
    ¬ ((1 : ℚ) > ewmLast 20 [2, 1]) ∧
    analyze_with_trend [2, 1] = (Direction.BEARISH, 9/10) ∧
    analyze_with_trend [2, 1] ≠ (Direction.NEUTRAL, 0) := by
  have h20 := ewmLast_twenty_two_bars
  have h50 := ewmLast_fifty_two_bars
  have h200 := ewmLast_twohundred_two_bars
  have hval : analyze_with_trend [2, 1] = (Direction.BEARISH, 9/10) := by
    have hl : ([2, 1] : List ℚ).getLast? = some 1 := rfl
    simp only [analyze_with_trend, hl, h20, h50, h200]
    norm_num
  refine ⟨?_, hval, ?_⟩
  · rw [h20]; norm_num
  · rw [hval]
    intro hcontra
    exact absurd (congrArg Prod.fst hcontra) (by simp)

/-- C7 (amended): the full trend evaluator decision rule on a non-empty
series — strict three-EMA stacking close > ema20 > ema50 > ema200 gives 0.9,
its bearish mirror gives BEARISH 0.9, the two-EMA partial stackings give 0.6
in their direction, and the result is NEUTRAL 0 exactly when neither the
bullish nor the bearish partial stacking holds. -/
theorem analyze_with_trend_characterization (closes : List ℚ) (c : ℚ)
    (h : closes.getLast? = some c) :
    (c > ewmLast 20 closes ∧ ewmLast 20 closes > ewmLast 50 closes ∧
       ewmLast 50 closes > ewmLast 200 closes →
       analyze_with_trend closes = (Direction.BULLISH, 9/10)) ∧
    (c < ewmLast 20 closes ∧ ewmLast 20 closes < ewmLast 50 closes ∧
       ewmLast 50 closes < ewmLast 200 closes →
       analyze_with_trend closes = (Direction.BEARISH, 9/10)) ∧
    (c > ewmLast 20 closes ∧ ewmLast 20 closes > ewmLast 50 closes ∧
       ¬ ewmLast 50 closes > ewmLast 200 closes →
       analyze_with_trend closes = (Direction.BULLISH, 6/10)) ∧
    (c < ewmLast 20 closes ∧ ewmLast 20 closes < ewmLast 50 closes ∧
       ¬ ewmLast 50 closes < ewmLast 200 closes →
       analyze_with_trend closes = (Direction.BEARISH, 6/10)) ∧
    (¬ (c > ewmLast 20 closes ∧ ewmLast 20 closes > ewmLast 50 closes) ∧
       ¬ (c < ewmLast 20 closes ∧ ewmLast 20 closes < ewmLast 50 closes) →
       analyze_with_trend closes = (Direction.NEUTRAL, 0)) := by
  simp only [analyze_with_trend, h]
  refine ⟨?_, ?_, ?_, ?_, ?_⟩
  · intro hc
    rw [if_pos hc]
  · intro hc
    rw [if_neg (fun hk => absurd hk.1 (lt_asymm hc.1)), if_pos hc]
  · intro hc
    rw [if_neg (fun hk => hc.2.2 hk.2.2),
        if_neg (fun hk => absurd hk.1 (lt_asymm hc.1)),
        if_pos ⟨hc.1, hc.2.1⟩]
  · intro hc
    rw [if_neg (fun hk => absurd hk.1 (lt_asymm hc.1)),
        if_neg (fun hk => hc.2.2 hk.2.2),
        if_neg (fun hk => absurd hk.1 (lt_asymm hc.1)),
        if_pos ⟨hc.1, hc.2.1⟩]
  · intro hc
    rw [if_neg (fun hk => hc.1 ⟨hk.1, hk.2.1⟩),
        if_neg (fun hk => hc.2 ⟨hk.1, hk.2.1⟩),
        if_neg hc.1, if_neg hc.2]

/-- Witness for the amended C7: the falling two-bar series [2, 1] satisfies
the strict bearish stacking and the characterization yields BEARISH 0.9. -/
theorem analyze_with_trend_characterization_witness :
    analyze_with_trend [2, 1] = (Direction.BEARISH, 9/10) := by
  refine (analyze_with_trend_characterization [2, 1] 1 rfl).2.1 ?_
  rw [ewmLast_twenty_two_bars, ewmLast_fifty_two_bars, ewmLast_twohundred_two_bars]
  norm_num

/-- Counterexample for C4: the two-bar rising series [1, 2] has far fewer
bars than the trend evaluator's EMA windows (20/50/200), yet the evaluator
returns BULLISH 0.9 instead of the claimed NEUTRAL 0 — pandas EMAs are
smoothed from however few samples exist. -/
theorem analyze_with_trend_short_series_not_neutral :
    ([1, 2] : List ℚ).length < 20 ∧
    analyze_with_trend [1, 2] = (Direction.BULLISH, 9/10) ∧
    analyze_with_trend [1, 2] ≠ (Direction.NEUTRAL, 0) := by
  have hval : analyze_with_trend [1, 2] = (Direction.BULLISH, 9/10) := by
    have hl : ([1, 2] : List ℚ).getLast? = some 2 := rfl
    simp only [analyze_with_trend, hl, ewmLast_twenty_up_bars,
      ewmLast_fifty_up_bars, ewmLast_twohundred_up_bars]
    norm_num
  refine ⟨by norm_num, hval, ?_⟩
  rw [hval]
  intro hcontra
  exact absurd (congrArg Prod.fst hcontra) (by simp)

/-- A float value as it matters to the RSI computation: a finite rational,
one of the two infinities, or NaN.  numpy/pandas division by zero does not
raise — it produces ±inf or NaN — and this type carries exactly that
semantics through the RSI formula. -/
inductive PFloat
| fin (q : ℚ)
| pinf
| ninf
| nan
deriving DecidableEq

/-- IEEE negation. -/
def PFloat.neg : PFloat → PFloat
  | fin q => fin (-q)
  | pinf => ninf
  | ninf => pinf
  | nan => nan

/-- IEEE addition (inf + (-inf) = NaN; NaN propagates). -/
def PFloat.add : PFloat → PFloat → PFloat
  | fin a, fin b => fin (a + b)
  | fin _, pinf => pinf
  | fin _, ninf => ninf
  | pinf, fin _ => pinf
  | ninf, fin _ => ninf
  | pinf, pinf => pinf
  | ninf, ninf => ninf
  | pinf, ninf => nan
  | ninf, pinf => nan
  | nan, _ => nan
  | _, nan => nan

/-- IEEE subtraction. -/
def PFloat.sub (a b : PFloat) : PFloat := a.add b.neg

/-- IEEE division: finite/0 is ±inf for a nonzero numerator and NaN for 0/0;
finite/inf is 0; NaN propagates.  (Signed zeros are collapsed to 0, which is
sound for the non-negative gain/loss averages fed in here.) -/
def PFloat.div : PFloat → PFloat → PFloat
  | fin a, fin b =>
      if b = 0 then (if a = 0 then nan else if a > 0 then pinf else ninf)
      else fin (a / b)
  | fin _, pinf => fin 0
  | fin _, ninf => fin 0
  | pinf, fin b => if b < 0 then ninf else pinf
  | ninf, fin b => if b < 0 then pinf else ninf
  | pinf, pinf => nan
  | pinf, ninf => nan
  | ninf, pinf => nan
  | ninf, ninf => nan
  | nan, _ => nan
  | _, nan => nan

/-- The positive parts of the successive deltas (`delta.where(delta > 0, 0)`). -/
def gainsAux (prev : ℚ) : List ℚ → List ℚ
  | [] => []
  | p :: rest => (if p - prev > 0 then p - prev else 0) :: gainsAux p rest

/-- `prices.diff()` leaves NaN at the first row; NaN > 0 is false so
`where(delta > 0, 0)` turns that first cell into 0. -/
def gainsList (prices : List ℚ) : List ℚ :=
  match prices with
  | [] => []
  | p0 :: rest => 0 :: gainsAux p0 rest

/-- The negated negative parts of the deltas (`-delta.where(delta < 0, 0)`). -/
def lossesAux (prev : ℚ) : List ℚ → List ℚ
  | [] => []
  | p :: rest => (if p - prev < 0 then prev - p else 0) :: lossesAux p rest

/-- Loss series, first cell 0 for the same NaN-comparison reason. -/
def lossesList (prices : List ℚ) : List ℚ :=
  match prices with
  | [] => []
  | p0 :: rest => 0 :: lossesAux p0 rest

/-- `Series.rolling(window=w).mean()` at position j: NaN while fewer than w
observations are available, else the mean of the w samples ending at j. -/
def rollingMeanAt (xs : List ℚ) (w : ℕ) (j : ℕ) : PFloat :=
  if j + 1 < w ∨ xs.length ≤ j then PFloat.nan
  else PFloat.fin ((((xs.take (j+1)).drop (j+1-w)).sum) / (w : ℚ))

/-- TechnicalAnalyzer.calculate_rsi (technical_analyzer.py 62-69) at position
j: `rs = gain/loss; rsi = 100 - 100/(1 + rs)` with float semantics.  The
identical inline RSI of analyze_with_momentum (advanced_trading_bot.py
212-216) is the same formula. -/
def calculate_rsi_at (prices : List ℚ) (period : ℕ) (j : ℕ) : PFloat :=
  (PFloat.fin 100).sub ((PFloat.fin 100).div ((PFloat.fin 1).add
    ((rollingMeanAt (gainsList prices) period j).div
      (rollingMeanAt (lossesList prices) period j))))

/-- Fifteen strictly rising prices: every delta is +1, so over the 14-period
window the average loss is exactly 0 and the average gain is 1. -/
def rsiFixture : List ℚ :=
  [1, 2, 3, 4, 5, 6, 7, 8, 9, 10, 11, 12, 13, 14, 15]

lemma rsiFixture_avg_loss : rollingMeanAt (lossesList rsiFixture) 14 14 = PFloat.fin 0 := by
  norm_num [rsiFixture, lossesList, lossesAux, rollingMeanAt]

lemma rsiFixture_avg_gain : rollingMeanAt (gainsList rsiFixture) 14 14 = PFloat.fin 1 := by
  norm_num [rsiFixture, gainsList, gainsAux, rollingMeanAt]

/-- Counterexample for C5: on 15 strictly rising prices the rolling average
loss at the last position is exactly 0, yet the RSI there is the concrete
number 100 (rs = +inf, 100 − 100/(1+inf) = 100), not NaN/undefined. -/
theorem rsi_zero_loss_is_defined_100 :
    rollingMeanAt (lossesList rsiFixture) 14 14 = PFloat.fin 0 ∧
    calculate_rsi_at rsiFixture 14 14 = PFloat.fin 100 ∧
    calculate_rsi_at rsiFixture 14 14 ≠ PFloat.nan := by
  have hval : calculate_rsi_at rsiFixture 14 14 = PFloat.fin 100 := by
    unfold calculate_rsi_at
    rw [rsiFixture_avg_loss, rsiFixture_avg_gain]
    norm_num [PFloat.div, PFloat.add, PFloat.sub, PFloat.neg]
  exact ⟨rsiFixture_avg_loss, hval, by rw [hval]; intro h; cases h⟩

/-- C5 (amended): when the rolling average loss is exactly zero the RSI does
not crash; it is NaN only when the average gain is also zero, and is exactly
100 whenever the average gain is positive. -/
theorem rsi_zero_loss_characterization (prices : List ℚ) (period j : ℕ) (g : ℚ)
    (hg : rollingMeanAt (gainsList prices) period j = PFloat.fin g)
    (hl : rollingMeanAt (lossesList prices) period j = PFloat.fin 0) :
    (g = 0 → calculate_rsi_at prices period j = PFloat.nan) ∧
    (0 < g → calculate_rsi_at prices period j = PFloat.fin 100) := by
  unfold calculate_rsi_at
  rw [hg, hl]
  constructor
  · intro h0
    subst h0
    simp [PFloat.div, PFloat.add, PFloat.sub, PFloat.neg]
  · intro hpos
    have hdiv : (PFloat.fin g).div (PFloat.fin 0) = PFloat.pinf := by
      simp [PFloat.div, hpos.ne', hpos]
    rw [hdiv]
    norm_num [PFloat.div, PFloat.add, PFloat.sub, PFloat.neg]

/-- Witness for the amended C5: on the rising fixture the average gain is 1
and the characterization gives RSI = 100. -/
theorem rsi_zero_loss_characterization_witness :
    calculate_rsi_at rsiFixture 14 14 = PFloat.fin 100 :=
  (rsi_zero_loss_characterization rsiFixture 14 14 1
    rsiFixture_avg_gain rsiFixture_avg_loss).2 (by norm_num)

/-- A fair-value gap as recorded by TechnicalAnalyzer.identify_fvg
(technical_analyzer.py 97-131); the 'time' key (df.index[i]) is positional
information already carried by end_index and is not duplicated here. -/
structure FVG where
  type : Direction
  start_index : ℕ
  end_index : ℕ
  top : ℚ
  bottom : ℚ
  size : ℚ
deriving DecidableEq

/-- The body of identify_fvg's loop at index i: bullish when
`high[i-2] < low[i]`, else bearish when `low[i-2] > high[i]` (bar i-1's
direction is NOT consulted by this detector — only detect_fvg in
advanced_trading_bot.py checks it). -/
def fvgAt (df : List Row) (i : ℕ) : Option FVG :=
  match df[i-2]?, df[i]? with
  | some b2, some b0 =>
      if b2.high < b0.low then
        some { type := Direction.BULLISH, start_index := i-2, end_index := i,
               top := b0.low, bottom := b2.high, size := b0.low - b2.high }
      else if b2.low > b0.high then
        some { type := Direction.BEARISH, start_index := i-2, end_index := i,
               top := b2.low, bottom := b0.high, size := b2.low - b0.high }
      else none
  | _, _ => none

/-- TechnicalAnalyzer.identify_fvg: the loop `for i in range(2, len(df))`. -/
def identify_fvg (df : List Row) : List FVG :=
  ((List.range df.length).drop 2).filterMap (fvgAt df)

/-- An order block as recorded by TechnicalAnalyzer.identify_order_blocks
(technical_analyzer.py 133-175). -/
structure OrderBlock where
  type : Direction
  index : ℕ
  high : ℚ
  low : ℚ
  strength : ℚ
deriving DecidableEq

/-- The loop body of identify_order_blocks at index i.  A NaN volume_sma
(`none`) makes the volume comparison false in Python, so no block is
recorded. -/
def obAt (df : List Row) (i : ℕ) : Option OrderBlock :=
  match df[i]?, df[i-1]? with
  | some cur, some prev =>
      match cur.volume_sma with
      | some vs =>
          if cur.close > cur.«open» ∧ cur.close > prev.close ∧ cur.volume > vs * (3/2) then
            some { type := Direction.BULLISH, index := i-1,
                   high := prev.high, low := prev.low, strength := cur.volume / vs }
          else if cur.close < cur.«open» ∧ cur.close < prev.close ∧ cur.volume > vs * (3/2) then
            some { type := Direction.BEARISH, index := i-1,
                   high := prev.high, low := prev.low, strength := cur.volume / vs }
          else none
      | none => none
  | _, _ => none

/-- TechnicalAnalyzer.identify_order_blocks: `for i in range(lookback, len(df))`
with default lookback 10. -/
def identify_order_blocks (df : List Row) (lookback : ℕ) : List OrderBlock :=
  ((List.range df.length).drop lookback).filterMap (obAt df)

inductive SweepType
| high_sweep
| low_sweep
deriving DecidableEq

/-- A liquidity sweep as recorded by identify_liquidity_sweeps; `extreme` is
the 'sweep_high'/'sweep_low' key. -/
structure Sweep where
  type : SweepType
  level : ℚ
  extreme : ℚ
deriving DecidableEq

/-- pandas Series.max() of a non-empty list (the [] default is never used on
the guarded paths). -/
def maxOfD : List ℚ → ℚ
  | [] => 0
  | x :: rest => rest.foldl max x

/-- pandas Series.min() of a non-empty list. -/
def minOfD : List ℚ → ℚ
  | [] => 0
  | x :: rest => rest.foldl min x

/-- TechnicalAnalyzer.identify_liquidity_sweeps (technical_analyzer.py
177-217).  NOTE the faithful off-by-one: `recent_high = df['high'].iloc
[-lookback:].max()` takes the last `lookback` rows INCLUDING the latest bar,
and the latest bar is `df.iloc[-1]`. -/
def identify_liquidity_sweeps (df : List Row) (lookback : ℕ) : List Sweep :=
  if df.length < lookback then []
  else
    match df.getLast? with
    | none => []
    | some lastBar =>
        let window := df.drop (df.length - lookback)
        let recent_high := maxOfD (window.map Row.high)
        let recent_low := minOfD (window.map Row.low)
        if lastBar.high > recent_high then
          if lastBar.close < lastBar.«open» ∧ lastBar.close < recent_high * (995/1000) then
            [{ type := SweepType.high_sweep, level := recent_high, extreme := lastBar.high }]
          else []
        else if lastBar.low < recent_low then
          if lastBar.close > lastBar.«open» ∧ lastBar.close > recent_low * (1005/1000) then
            [{ type := SweepType.low_sweep, level := recent_low, extreme := lastBar.low }]
          else []
        else []

lemma le_foldl_max (xs : List ℚ) (a : ℚ) : a ≤ xs.foldl max a := by
  induction xs generalizing a with
  | nil => exact le_refl a
  | cons x t ih => exact le_trans (le_max_left a x) (ih (max a x))

lemma mem_le_foldl_max (xs : List ℚ) (a x : ℚ) (h : x ∈ xs) : x ≤ xs.foldl max a := by
  induction xs generalizing a with
  | nil => cases h
  | cons y t ih =>
      rcases List.mem_cons.mp h with rfl | hmem
      · exact le_trans (le_max_right a x) (le_foldl_max t _)
      · exact ih _ hmem

lemma le_maxOfD {x : ℚ} {xs : List ℚ} (h : x ∈ xs) : x ≤ maxOfD xs := by
  cases xs with
  | nil => cases h
  | cons y t =>
      rcases List.mem_cons.mp h with rfl | hmem
      · exact le_foldl_max t x
      · exact mem_le_foldl_max t y x hmem

lemma foldl_min_le (xs : List ℚ) (a : ℚ) : xs.foldl min a ≤ a := by
  induction xs generalizing a with
  | nil => exact le_refl a
  | cons x t ih => exact le_trans (ih (min a x)) (min_le_left a x)

lemma foldl_min_le_mem (xs : List ℚ) (a x : ℚ) (h : x ∈ xs) : xs.foldl min a ≤ x := by
  induction xs generalizing a with
  | nil => cases h
  | cons y t ih =>
      rcases List.mem_cons.mp h with rfl | hmem
      · exact le_trans (foldl_min_le t _) (min_le_right a x)
      · exact ih _ hmem

lemma minOfD_le {x : ℚ} {xs : List ℚ} (h : x ∈ xs) : minOfD xs ≤ x := by
  cases xs with
  | nil => cases h
  | cons y t =>
      rcases List.mem_cons.mp h with rfl | hmem
      · exact foldl_min_le t x
      · exact foldl_min_le_mem t y x hmem

lemma getLast?_mem_drop {α : Type _} (l : List α) (b : α) (n : ℕ) (hn : 0 < n)
    (h : l.getLast? = some b) : b ∈ l.drop (l.length - n) := by
  induction l with
  | nil => simp at h
  | cons a t ih =>
      cases t with
      | nil =>
          have hb : a = b := by simpa using h
          subst hb
          have h0 : (a :: ([] : List α)).length - n = 0 := by simp; omega
          rw [h0]
          simp
      | cons c t2 =>
          have hh : (c :: t2).getLast? = some b := by
            simpa [List.getLast?_cons_cons] using h
          by_cases hc : (a :: c :: t2).length ≤ n
          · have h0 : (a :: c :: t2).length - n = 0 := by omega
            rw [h0, List.drop_zero]
            exact List.mem_cons_of_mem a (List.mem_of_mem_drop (ih hh))
          · have harith : (a :: c :: t2).length - n = ((c :: t2).length - n) + 1 := by
              simp only [List.length_cons] at hc ⊢
              omega
            rw [harith, List.drop_succ_cons]
            exact ih hh

/-- The 21-bar sweep fixture: twenty identical bars (high 10) followed by a
bar spiking to 12 and closing back at 9, below its open of 11. -/
def sweepBase : Row := { «open» := 7, high := 10, low := 5, close := 7 }

def sweepLast : Row := { «open» := 11, high := 12, low := 8, close := 9 }

def sweepFixture : List Row := List.replicate 20 sweepBase ++ [sweepLast]

/-- C8: the liquidity-sweep detector can never fire — its rolling window
(`iloc[-lookback:]`) contains the latest bar itself, so the breach test
`high[-1] > max(window)` is unsatisfiable — and in particular it returns no
sweep on the fixture whose last bar breaches the maximum high (10) of the
twenty PRECEDING bars by 2 and closes back 10% below it, where the claim
requires a high sweep. -/
theorem liquidity_sweeps_never_fire :
    (∀ df : List Row, identify_liquidity_sweeps df 20 = []) ∧
    maxOfD ((sweepFixture.take 20).map Row.high) = 10 ∧
    maxOfD ((sweepFixture.take 20).map Row.high) < sweepLast.high ∧
    sweepLast.close < sweepLast.«open» ∧
    sweepLast.close < 10 * (995/1000) ∧
    identify_liquidity_sweeps sweepFixture 20 = [] := by
  have huniv : ∀ df : List Row, identify_liquidity_sweeps df 20 = [] := by
    intro df
    unfold identify_liquidity_sweeps
    split
    · rfl
    · rename_i hlen
      split
      · rfl
      · rename_i lastBar heq
        have hmem : lastBar ∈ df.drop (df.length - 20) :=
          getLast?_mem_drop df lastBar 20 (by norm_num) heq
        have h1 : lastBar.high ≤ maxOfD ((df.drop (df.length - 20)).map Row.high) :=
          le_maxOfD (List.mem_map_of_mem Row.high hmem)
        have h2 : minOfD ((df.drop (df.length - 20)).map Row.low) ≤ lastBar.low :=
          minOfD_le (List.mem_map_of_mem Row.low hmem)
        rw [if_neg (not_lt.mpr h1), if_neg (not_lt.mpr h2)]
  have hmax : maxOfD ((sweepFixture.take 20).map Row.high) = 10 := by
    norm_num [sweepFixture, sweepBase, sweepLast, maxOfD, List.replicate_succ]
  refine ⟨huniv, hmax, ?_, ?_, ?_, huniv sweepFixture⟩
  · rw [hmax]
    norm_num [sweepLast]
  · norm_num [sweepLast]
  · norm_num [sweepLast]

/-- The five bars of the spec's FVG fixture (the surrounding bars overlap so
no other 3-bar imbalance exists). -/
def fvgBar0 : Row := { «open» := 19/2, high := 10, low := 9, close := 49/5 }

def fvgBar1 : Row := { «open» := 19/2, high := 53/5, low := 47/5, close := 21/2 }

def fvgBar2 : Row := { «open» := 56/5, high := 12, low := 11, close := 59/5 }

def fvgBar3 : Row := { «open» := 11, high := 12, low := 21/2, close := 23/2 }

def fvgBar4 : Row := { «open» := 59/5, high := 61/5, low := 23/2, close := 12 }

def fvgFixture : List Row := [fvgBar0, fvgBar1, fvgBar2, fvgBar3, fvgBar4]

/-- C9: on the 5-bar fixture with high[0]=10, low[0]=9, high[2]=12, low[2]=11
and bar 1 closing above its open, identify_fvg returns exactly one FVG, a
bullish one spanning bottom 10 to top 11. -/
theorem identify_fvg_fixture_single_bullish :
    fvgBar0.high = 10 ∧ fvgBar0.low = 9 ∧ fvgBar2.high = 12 ∧ fvgBar2.low = 11 ∧
    fvgBar1.«open» < fvgBar1.close ∧
    identify_fvg fvgFixture =
      [{ type := Direction.BULLISH, start_index := 0, end_index := 2,
         top := 11, bottom := 10, size := 1 }] := by
  refine ⟨rfl, rfl, rfl, rfl, by norm_num [fvgBar1], ?_⟩
  have hr : (List.range fvgFixture.length).drop 2 = [2, 3, 4] := rfl
  unfold identify_fvg
  rw [hr]
  simp only [List.filterMap_cons, List.filterMap_nil]
  norm_num [fvgAt, fvgFixture, fvgBar0, fvgBar1, fvgBar2, fvgBar3, fvgBar4]

/-- Python round(x, 1). -/
def pyRound1 (q : ℚ) : ℚ := (pyRoundHalfEven (q * 10) : ℚ) / 10

/-- The strength/direction part of the dict returned by
TechnicalAnalyzer.get_signal_strength (the factors metadata and the
raw_score/max_score keys are reporting only and are not modelled). -/
structure SignalStrength where
  strength : ℚ
  direction : Direction
deriving DecidableEq

/-- TechnicalAnalyzer.get_signal_strength (technical_analyzer.py 287-407):
fewer than 50 rows short-circuits to strength 0 / neutral; otherwise each
factor contributes a score and a max weight when its indicator cells are not
NaN, the SMC detectors run over the last 20 rows, and the total is normalized
to 0-10, rounded to one decimal, with the direction thresholds applied to the
unrounded strength. -/
def get_signal_strength (df : List Row) : SignalStrength :=
  if df.length < 50 then { strength := 0, direction := Direction.NEUTRAL }
  else
    match df.getLast? with
    | none => { strength := 0, direction := Direction.NEUTRAL }
    | some current =>
        let rsiPair : ℤ × ℤ :=
          match current.rsi with
          | none => (0, 0)
          | some r =>
              (if r < 30 then 2
               else if r > 70 then -2
               else if 40 ≤ r ∧ r ≤ 60 then 0
               else if r > 50 then 1 else -1, 2)
        let bbPair : ℤ × ℤ :=
          match current.bb_position with
          | none => (0, 0)
          | some b => (if b < 1/10 then 2 else if b > 9/10 then -2 else 0, 2)
        let emaPair : ℤ × ℤ :=
          match current.ema_fast, current.ema_slow with
          | some ef, some es =>
              (if current.close > ef ∧ ef > es then 2
               else if current.close < ef ∧ ef < es then -2
               else 0, 2)
          | _, _ => (0, 0)
        let macdPair : ℤ × ℤ :=
          match current.macd, current.macd_signal, current.macd_histogram with
          | some m, some msig, some hist =>
              (if m > msig ∧ hist > 0 then 1
               else if m < msig ∧ hist < 0 then -1
               else 0, 1)
          | some _, some _, none => (0, 1)
          | _, _, _ => (0, 0)
        let t20 := df.drop (df.length - 20)
        let smcScore : ℤ :=
          (if identify_fvg t20 ≠ [] then 1 else 0) +
            (if identify_order_blocks t20 10 ≠ [] then 1 else 0) +
            (if identify_liquidity_sweeps t20 20 ≠ [] then 2 else 0)
        let total : ℤ := rsiPair.1 + bbPair.1 + emaPair.1 + macdPair.1 + smcScore
        let maxS : ℤ := rsiPair.2 + bbPair.2 + emaPair.2 + macdPair.2 + 4
        let strengthRaw : ℚ :=
          if maxS > 0 then
            max 0 (min 10 ((((total + maxS) : ℤ) : ℚ) / (((2 * maxS) : ℤ) : ℚ) * 10))
          else 0
        let direction :=
          if strengthRaw > 6 then
            (if total > 0 then Direction.BULLISH else Direction.BEARISH)
          else if strengthRaw < 4 then Direction.NEUTRAL
          else (if total > 0 then Direction.BULLISH else Direction.BEARISH)
        { strength := pyRound1 strengthRaw, direction := direction }

/-- A fair-value-gap zone as recorded by AdvancedTradingBot.detect_fvg
(advanced_trading_bot.py 383-409); 'time' (df.index[i]) is carried as the
positional end_index. -/
structure BotFVG where
  top : ℚ
  bottom : ℚ
  end_index : ℕ
deriving DecidableEq

/-- detect_fvg's bullish branch at index i: `low[i-2] > high[i]` with bar i-1
closing above its open. -/
def botFvgBullAt (df : List Row) (i : ℕ) : Option BotFVG :=
  match df[i-2]?, df[i-1]?, df[i]? with
  | some b2, some b1, some b0 =>
      if b2.low > b0.high ∧ b1.close > b1.«open» then
        some { top := b0.high, bottom := b2.low, end_index := i }
      else none
  | _, _, _ => none

/-- detect_fvg's bearish elif at index i: only reached when the bullish
condition failed. -/
def botFvgBearAt (df : List Row) (i : ℕ) : Option BotFVG :=
  match df[i-2]?, df[i-1]?, df[i]? with
  | some b2, some b1, some b0 =>
      if ¬ (b2.low > b0.high ∧ b1.close > b1.«open») ∧
          (b2.high < b0.low ∧ b1.close < b1.«open») then
        some { top := b2.high, bottom := b0.low, end_index := i }
      else none
  | _, _, _ => none

/-- AdvancedTradingBot.detect_fvg: the (bullish, bearish) zone lists from the
loop `for i in range(2, len(price_data))`. -/
def detect_fvg (df : List Row) : List BotFVG × List BotFVG :=
  (((List.range df.length).drop 2).filterMap (botFvgBullAt df),
   ((List.range df.length).drop 2).filterMap (botFvgBearAt df))

/-- detect_order_blocks' bullish branch at index i (advanced_trading_bot.py
411-431): up candle, down candle, up candle — records the middle bar's low. -/
def botObBullAt (df : List Row) (i : ℕ) : Option ℚ :=
  match df[i-1]?, df[i]?, df[i+1]? with
  | some prev, some cur, some next =>
      if prev.close > prev.«open» ∧ cur.close < cur.«open» ∧ next.close > next.«open» then
        some cur.low
      else none
  | _, _, _ => none

/-- detect_order_blocks' bearish elif at index i: records the middle bar's
high, only when the bullish condition failed. -/
def botObBearAt (df : List Row) (i : ℕ) : Option ℚ :=
  match df[i-1]?, df[i]?, df[i+1]? with
  | some prev, some cur, some next =>
      if ¬ (prev.close > prev.«open» ∧ cur.close < cur.«open» ∧ next.close > next.«open») ∧
          (prev.close < prev.«open» ∧ cur.close > cur.«open» ∧ next.close < next.«open») then
        some cur.high
      else none
  | _, _, _ => none

/-- AdvancedTradingBot.detect_order_blocks: the (bullish, bearish) level
lists from the loop `for i in range(1, len(price_data)-1)`. -/
def detect_order_blocks (df : List Row) : List ℚ × List ℚ :=
  (((List.range (df.length - 1)).drop 1).filterMap (botObBullAt df),
   ((List.range (df.length - 1)).drop 1).filterMap (botObBearAt df))

inductive LiquidityKind
| resistance
| support
deriving DecidableEq

/-- A swing level as recorded by AdvancedTradingBot.detect_liquidity. -/
structure LiquidityLevel where
  level : ℚ
  kind : LiquidityKind
deriving DecidableEq

/-- detect_liquidity's loop body at index i (advanced_trading_bot.py
433-464): a 5-bar strict swing high, else a 5-bar strict swing low. -/
def liqAt (df : List Row) (i : ℕ) : Option LiquidityLevel :=
  match df[i]?, df[i-1]?, df[i-2]?, df[i+1]?, df[i+2]? with
  | some b, some p1, some p2, some n1, some n2 =>
      if b.high > p1.high ∧ b.high > p2.high ∧ b.high > n1.high ∧ b.high > n2.high then
        some { level := b.high, kind := LiquidityKind.resistance }
      else if b.low < p1.low ∧ b.low < p2.low ∧ b.low < n1.low ∧ b.low < n2.low then
        some { level := b.low, kind := LiquidityKind.support }
      else none
  | _, _, _, _, _ => none

/-- AdvancedTradingBot.detect_liquidity: `for i in range(2, len(df)-2)`.
analyze_with_smc stores these levels in its returned metadata only; they do
not influence its direction or strength. -/
def detect_liquidity (df : List Row) : List LiquidityLevel :=
  ((List.range (df.length - 2)).drop 2).filterMap (liqAt df)

/-- AdvancedTradingBot.analyze_with_smc (advanced_trading_bot.py 107-155):
`current_price = close.iloc[-1]` raises IndexError on an empty frame, whose
except-handler returns NEUTRAL/0.0 (the `none` branch).  The Python
conditions short-circuit, so `len(obs) > 0 and price > obs[-1]` is encoded
by matching on the last recorded level; metadata keys (entry, zones,
liquidity levels) are reporting only and are not modelled. -/
def analyze_with_smc (df : List Row) : Direction × ℚ :=
  match df.getLast? with
  | none => (Direction.NEUTRAL, 0)
  | some lastRow =>
      let fvg := detect_fvg df
      let ob := detect_order_blocks df
      let bull : Bool :=
        (match ob.1.getLast? with
         | some lvl => decide (lastRow.close > lvl)
         | none => false) && !fvg.1.isEmpty
      let bear : Bool :=
        (match ob.2.getLast? with
         | some lvl => decide (lastRow.close < lvl)
         | none => false) && !fvg.2.isEmpty
      if bull then (Direction.BULLISH, 8/10)
      else if bear then (Direction.BEARISH, 8/10)
      else (Direction.NEUTRAL, 0)

/-- Float comparison `a > q` with NaN returning false. -/
def PFloat.gtb : PFloat → ℚ → Bool
  | PFloat.fin x, q => decide (x > q)
  | PFloat.pinf, _ => true
  | PFloat.ninf, _ => false
  | PFloat.nan, _ => false

/-- Float comparison `a < q` with NaN returning false. -/
def PFloat.ltb : PFloat → ℚ → Bool
  | PFloat.fin x, q => decide (x < q)
  | PFloat.pinf, _ => false
  | PFloat.ninf, _ => true
  | PFloat.nan, _ => false

/-- The full `Series.ewm(span).mean()` series: position j is the adjusted
EWM of the first j+1 samples. -/
def ewmSeries (span : ℕ) (xs : List ℚ) : List ℚ :=
  (List.range xs.length).map (fun j => ewmLast span (xs.take (j+1)))

/-- The MACD line `ewm(12) − ewm(26)` of analyze_with_momentum. -/
def macdSeries (xs : List ℚ) : List ℚ :=
  List.zipWith (fun a b => a - b) (ewmSeries 12 xs) (ewmSeries 26 xs)

/-- AdvancedTradingBot.analyze_with_momentum (advanced_trading_bot.py
208-254): the inline RSI is the same rolling-14 formula as calculate_rsi
(NaN before 14 observations, float semantics on a zero average loss); the
MACD signal line is the ewm(9) of the MACD series.  An empty frame raises at
`iloc[-1]` and the except-handler returns NEUTRAL/0.0. -/
def analyze_with_momentum (closes : List ℚ) : Direction × ℚ :=
  match closes.getLast? with
  | none => (Direction.NEUTRAL, 0)
  | some _ =>
      let rsi := calculate_rsi_at closes 14 (closes.length - 1)
      let macdLast := ewmLast 12 closes - ewmLast 26 closes
      let signalLast := ewmLast 9 (macdSeries closes)
      if rsi.gtb 50 && rsi.ltb 70 && decide (macdLast > signalLast) then
        (Direction.BULLISH, 8/10)
      else if rsi.ltb 50 && rsi.gtb 30 && decide (macdLast < signalLast) then
        (Direction.BEARISH, 8/10)
      else (Direction.NEUTRAL, 0)

/-- AdvancedTradingBot.analyze_with_mean_reversion (advanced_trading_bot.py
256-295): Bollinger bands sma ± 2·std over a rolling 20 window (pandas std
uses the sample deviation, ddof = 1).  Fewer than 20 bars give NaN bands and
both band comparisons are then false (the length guard); an empty frame
raises at `iloc[-1]` (the `none` branch).  The band tests
`close ≤ sma − 2σ` and `close ≥ sma + 2σ` are encoded in the equivalent
square-free form `sma − close ≥ 0 ∧ (sma − close)² ≥ 4·var` (resp. mirrored)
to stay within exact rational arithmetic. -/
def analyze_with_mean_reversion (closes : List ℚ) : Direction × ℚ :=
  match closes.getLast? with
  | none => (Direction.NEUTRAL, 0)
  | some c =>
      if closes.length < 20 then (Direction.NEUTRAL, 0)
      else
        let w := closes.drop (closes.length - 20)
        let m := w.sum / 20
        let v := ((w.map (fun x => (x - m) ^ 2)).sum) / 19
        if m - c ≥ 0 ∧ (m - c) ^ 2 ≥ 4 * v then (Direction.BULLISH, 7/10)
        else if c - m ≥ 0 ∧ (c - m) ^ 2 ≥ 4 * v then (Direction.BEARISH, 7/10)
        else (Direction.NEUTRAL, 0)

/-- AdvancedTradingBot.analyze_with_breakout (advanced_trading_bot.py
297-339): rolling-20 extrema of highs/lows and the rolling-20 volume mean —
all three windows INCLUDE the latest bar, as in the source.  Fewer than 20
bars give NaN rolling values and false comparisons (the length guard); an
empty frame raises at `iloc[-1]` (the `none` branch). -/
def analyze_with_breakout (df : List Row) : Direction × ℚ :=
  match df.getLast? with
  | none => (Direction.NEUTRAL, 0)
  | some lastRow =>
      if df.length < 20 then (Direction.NEUTRAL, 0)
      else
        let w := df.drop (df.length - 20)
        let hi := maxOfD (w.map Row.high)
        let lo := minOfD (w.map Row.low)
        let vsma := (w.map Row.volume).sum / 20
        if lastRow.close > hi ∧ lastRow.volume > vsma * (3/2) then (Direction.BULLISH, 8/10)
        else if lastRow.close < lo ∧ lastRow.volume > vsma * (3/2) then (Direction.BEARISH, 8/10)
        else (Direction.NEUTRAL, 0)

/-- C4 (amended): the top-level evaluator get_signal_strength does resolve
fewer than 50 bars to neutral with strength 0, and each per-strategy
evaluator (smc, trend, momentum, mean reversion, breakout) returns NEUTRAL/0
on an EMPTY series (through its exception handler); but on non-empty series
shorter than the indicator windows the per-strategy evaluators may still
return directional signals, since pandas smooths the EMAs from however few
samples exist. -/
theorem evaluators_insufficient_data_amended :
    (∀ df : List Row, df.length < 50 →
       get_signal_strength df = { strength := 0, direction := Direction.NEUTRAL }) ∧
    analyze_with_trend [] = (Direction.NEUTRAL, 0) ∧
    analyze_with_smc [] = (Direction.NEUTRAL, 0) ∧
    analyze_with_momentum [] = (Direction.NEUTRAL, 0) ∧
    analyze_with_mean_reversion [] = (Direction.NEUTRAL, 0) ∧
    analyze_with_breakout [] = (Direction.NEUTRAL, 0) := by
  refine ⟨?_, rfl, rfl, rfl, rfl, rfl⟩
  intro df h
  unfold get_signal_strength
  rw [if_pos h]

/-- Witness for the amended C4: the empty frame is below the 50-bar cutoff
and gets strength 0 / neutral. -/
theorem evaluators_insufficient_data_amended_witness :
    get_signal_strength [] = { strength := 0, direction := Direction.NEUTRAL } :=
  evaluators_insufficient_data_amended.1 [] (by norm_num)

end SyntX
